import Mathlib

/-!
# Verification of the benthos transaction/backpressure core

This file gives a shallow embedding of the components of the repository that
the specification describes, and proves (or refutes) the spec's claims about
them:

* `internal/old/output/drop_on.go` — the `dropOn` decorator: its per-transaction
  forwarding loop (`dropOn.loop`), construction (`newDropOn`), `Consume`,
  shutdown sequencing and `WaitForClose`.
* `internal/old/output/writer/websocket.go` — the `Websocket` writer capability:
  `ConnectWithContext` and `WriteWithContext` and their connection-handle state.
* the cache writer's `NewCache` constructor (key/TTL expression parsing).

The forwarding loop of `dropOn` is modelled one iteration (one transaction) at
a time.  The concurrent environment — when the child output would accept a
send, how long its acknowledgement takes, when the decorator's context is
cancelled — is given as explicit data (`IterEnv`) in a virtual time measured in
the units of the configured backpressure duration, from the moment the loop
begins handling the transaction (which is when `time.NewTicker(d.onBackpressure)`
is created).  The ticker fires at absolute time `d`; both the send `select` and
the result-wait `select` race against the same ticker channel, which the
embedding reproduces by comparing absolute times against `d` in both places.
Ties between simultaneously-ready `select` branches are resolved in Go by a
random choice; the embedding resolves them deterministically with priority
child-progress ≻ ticker ≻ cancellation, and theorems that depend on which
branch fires use strict inequalities so that they hold for every resolution.
-/

namespace Benthos

/-- Errors observable through acknowledgement channels and return values.
Structured counterparts of the `error` values the Go code constructs:
`component.ErrNotConnected`, `component.ErrAlreadyStarted`,
`component.ErrTimeout`, the `fmt.Errorf("experienced back pressure beyond: %v",
d.onBackpressure)` of `drop_on.go`, the construction errors of `newDropOn` and
`NewCache`, and opaque child/transport errors carried as numeric codes. -/
inductive Err where
  | backPressure (d : Nat)
  | child (code : Nat)
  | notConnected
  | alreadyStarted
  | timeout
  | parseDuration (s : String)
  | parseKey (s : String)
  | parseTTL (s : String)
  | cacheNotFound (target : String)
  | urlParse
  | authSign
  | dialFailed (code : Nat)
  deriving DecidableEq, Repr

/-- `tleOpt t o` : the event at time `t` is no later than the (optional) event
at time `o`; `none` means the other event never fires. -/
def tleOpt (t : Nat) (o : Option Nat) : Bool :=
  match o with
  | none => true
  | some u => Nat.ble t u

/-- Configuration of the `dropOn` decorator after construction:
`onError` and `onBackpressure` fields of the Go `dropOn` struct
(`onBackpressure = 0` means the backpressure mode is disabled, exactly as a
zero `time.Duration` does in the Go code). -/
structure DropOnConf where
  onError : Bool
  onBackpressure : Nat
  deriving DecidableEq, Repr

/-- The environment of one iteration of `dropOn.loop` handling one transaction,
in virtual time from the start of the iteration:

* `sendAt` — time at which the child output would be ready to receive the
  forwarded transaction (`none`: never during this iteration);
* `resDelay` — delay after the child accepts until its result is ready on
  `resChan`;
* `childRes` — the child's result (`none` = success, `some e` = failure);
* `cancelAt` — time at which `d.ctx.Done()` fires (`none`: no cancellation);
* `ackOk` — whether `ts.Ack(d.ctx, res)` succeeds, i.e. the upstream producer
  accepts the acknowledgement before the context is cancelled. -/
structure IterEnv where
  sendAt : Option Nat
  resDelay : Nat
  childRes : Option Err
  cancelAt : Option Nat
  ackOk : Bool
  deriving DecidableEq, Repr

/-- Outcome of one iteration for the loop's control flow: continue with the
given `gotBackPressure` flag, terminate (a `return` in the Go loop), or block
forever (only possible with backpressure disabled, a child that never accepts
or responds, and no cancellation). -/
inductive IterStatus where
  | next (gotBackPressure : Bool)
  | terminated
  | blocked
  deriving DecidableEq, Repr

/-- Observable effects of one iteration of `dropOn.loop` on one transaction:

* `status` — loop control outcome;
* `sent` — payloads forwarded to the child on `d.transactionsOut` (each one
  rewrapped by `message.NewTransaction(ts.Payload, resChan)`);
* `attempts` — acknowledgement values passed to `ts.Ack` (at most one);
* `delivered` — acknowledgement values actually received by the upstream
  producer (`attempts` when `Ack` succeeds, empty otherwise);
* `dropped` — the message was treated as dropped due to backpressure;
* `drainSpawned` — the background goroutine draining the child's eventual
  response was spawned. -/
structure IterOut (α : Type) where
  status : IterStatus
  sent : List α
  attempts : List (Option Err)
  delivered : List (Option Err)
  dropped : Bool
  drainSpawned : Bool
  deriving DecidableEq, Repr

/-- The result value used when a message is dropped due to backpressure
(`drop_on.go` lines 245–252): `nil` when `onError` is set, otherwise the
synthetic error `experienced back pressure beyond: <onBackpressure>`. -/
def dropResult (conf : DropOnConf) : Option Err :=
  if conf.onError then none else some (.backPressure conf.onBackpressure)

/-- The tail of an iteration once a result value `res0` has been determined:
the error-mode conversion `if res != nil && d.onError { res = nil }`
(lines 272–275) followed by `ts.Ack(d.ctx, res)` (line 277); the loop
terminates after a failed `Ack` only when the context is cancelled. -/
def ackResult (conf : DropOnConf) (env : IterEnv) (gotBP : Bool)
    (sent : List α) (res0 : Option Err) (dropped drain : Bool) : IterOut α :=
  let res := if res0.isSome && conf.onError then none else res0
  { status :=
      if env.ackOk then .next gotBP
      else if env.cancelAt.isSome then .terminated else .next gotBP
    sent := sent
    attempts := [res]
    delivered := if env.ackOk then [res] else []
    dropped := dropped
    drainSpawned := drain }

/-- An iteration that ended in a `return` out of the loop (a cancellation
branch won a `select`); `sent` records whether the transaction had already
been handed to the child. -/
def terminatedWith (sent : List α) : IterOut α :=
  { status := .terminated, sent := sent, attempts := [], delivered := [],
    dropped := false, drainSpawned := false }

/-- An iteration that blocks forever: backpressure disabled, the child never
accepts, and no cancellation arrives. -/
def blockedOut : IterOut α :=
  { status := .blocked, sent := [], attempts := [], delivered := [],
    dropped := false, drainSpawned := false }

/-- One iteration of `dropOn.loop` (`drop_on.go` lines 209–279) handling a
transaction with payload `payload`, entered with sticky flag `gotBP`, in
environment `env`.

With `onBackpressure = d > 0` the Go code runs the inner closure of lines
211–254: a single ticker with period `d` is created; if sticky, a non-blocking
send (accepted only if the child is ready immediately, `sendAt = some 0`) which
on success clears the flag; if not sticky, a send racing child-acceptance
against the ticker and the context.  If (still) not backpressured, a wait for
the child's result racing against the *same* ticker — whose first un-consumed
fire remains at absolute time `d` — and the context; a ticker win here sets the
sticky flag and spawns the drain goroutine.  A set sticky flag then resolves
the message as dropped via `dropResult`.  With `onBackpressure = 0` the send
and wait race only against the context (lines 257–269). -/
def dropOnIter (conf : DropOnConf) (gotBP : Bool) (payload : α)
    (env : IterEnv) : IterOut α :=
  if 0 < conf.onBackpressure then
    let d := conf.onBackpressure
    if gotBP then
      if env.sendAt = some 0 then
        -- sticky non-blocking send accepted: clear flag, wait under the ticker
        if Nat.ble env.resDelay d && tleOpt env.resDelay env.cancelAt then
          ackResult conf env false [payload] env.childRes false false
        else if tleOpt d env.cancelAt then
          ackResult conf env true [payload] (dropResult conf) true true
        else
          terminatedWith [payload]
      else
        -- sticky non-blocking send refused: drop immediately, flag stays set
        ackResult conf env true [] (dropResult conf) true false
    else
      match env.sendAt with
      | some s =>
        if Nat.ble s d && tleOpt s env.cancelAt then
          -- child accepted at time s ≤ d: wait, next ticker fire still at d
          if Nat.ble (s + env.resDelay) d &&
              tleOpt (s + env.resDelay) env.cancelAt then
            ackResult conf env false [payload] env.childRes false false
          else if tleOpt d env.cancelAt then
            ackResult conf env true [payload] (dropResult conf) true true
          else
            terminatedWith [payload]
        else if tleOpt d env.cancelAt then
          -- ticker won the send select: drop without delivering
          ackResult conf env true [] (dropResult conf) true false
        else
          terminatedWith []
      | none =>
        if tleOpt d env.cancelAt then
          ackResult conf env true [] (dropResult conf) true false
        else
          terminatedWith []
  else
    -- backpressure disabled: block as long as it takes (lines 257–269)
    match env.sendAt with
    | some s =>
      if tleOpt s env.cancelAt then
        if tleOpt (s + env.resDelay) env.cancelAt then
          ackResult conf env gotBP [payload] env.childRes false false
        else
          terminatedWith [payload]
      else
        terminatedWith []
    | none =>
      match env.cancelAt with
      | some _ => terminatedWith []
      | none => blockedOut

/-! ## Construction: `newDropOn` and `NewCache` -/

/-- The `DropOnConditions` config struct of `drop_on.go`. -/
structure DropOnConditions where
  error : Bool
  backPressure : String
  deriving DecidableEq, Repr

/-- `newDropOn` (`drop_on.go` lines 159–182), parametrised by the duration
parser it calls (`time.ParseDuration`, external to the repository): the parser
is invoked only when the `back_pressure` string is non-empty, and a parse
failure is wrapped and returned as a construction error. -/
def newDropOn (parseDur : String → Except String Nat)
    (conf : DropOnConditions) : Except Err DropOnConf :=
  if 0 < conf.backPressure.length then
    match parseDur conf.backPressure with
    | .error _ => .error (.parseDuration conf.backPressure)
    | .ok d => .ok { onError := conf.error, onBackpressure := d }
  else
    .ok { onError := conf.error, onBackpressure := 0 }

/-- The `CacheConfig` struct of the cache output writer. -/
structure CacheConfig where
  target : String
  key : String
  ttl : String
  deriving DecidableEq, Repr

/-- A constructed `Cache` writer: the two parsed field expressions, as opaque
handles produced by the expression parser. -/
structure CacheState where
  keyExpr : Nat
  ttlExpr : Nat
  deriving DecidableEq, Repr

/-- `NewCache`, parametrised by the field-expression parser
(`mgr.BloblEnvironment().NewField`, external) and the resource probe
(`mgr.ProbeCache`): parses the key expression, then the TTL expression, then
probes the target cache resource; any failure is a construction error and no
writer is created. -/
def NewCache (newField : String → Except String Nat)
    (probeCache : String → Bool) (conf : CacheConfig) : Except Err CacheState :=
  match newField conf.key with
  | .error _ => .error (.parseKey conf.key)
  | .ok k =>
    match newField conf.ttl with
    | .error _ => .error (.parseTTL conf.ttl)
    | .ok t =>
      if probeCache conf.target then .ok { keyExpr := k, ttlExpr := t }
      else .error (.cacheNotFound conf.target)

/-! ## `Consume` -/

/-- The bindings of a running `dropOn`: the inbound channel reference
`transactionsIn` (`nil` until `Consume` succeeds), whether the child was
bound to `transactionsOut` via `wrapped.Consume`, and how many forwarding
loops have been spawned with `go d.loop()`. -/
structure DropOnRun where
  transactionsIn : Option Nat
  childBound : Bool
  loopsStarted : Nat
  deriving DecidableEq, Repr

/-- `dropOn.Consume` (`drop_on.go` lines 284–294): fails with
`ErrAlreadyStarted` when an inbound channel is already bound; otherwise binds
the child first (propagating its error), then records the inbound channel and
spawns the forwarding loop.  `childRes` is the result of the child's own
`Consume` call. -/
def dropOnConsume (d : DropOnRun) (childRes : Option Err) (ts : Nat) :
    Option Err × DropOnRun :=
  if d.transactionsIn.isSome then
    (some .alreadyStarted, d)
  else
    match childRes with
    | some e => (some e, d)
    | none =>
      (none, { transactionsIn := some ts, childBound := true,
               loopsStarted := d.loopsStarted + 1 })

/-! ## Shutdown -/

/-- The actions of the deferred shutdown sequence of `dropOn.loop`
(`drop_on.go` lines 187–192), in program order. -/
inductive ShutdownEvent where
  | closeTransactionsOut
  | childCloseAsync
  | childWaitForClose (maxWait : Nat)
  | signalClosed
  deriving DecidableEq, Repr

/-- The deferred shutdown sequence run when `dropOn.loop` returns:
close the outbound channel, request the child's shutdown, await the child with
the bounded maximum shutdown wait, and only then close `closedChan`. -/
def loopShutdownSeq (maxWait : Nat) : List ShutdownEvent :=
  [.closeTransactionsOut, .childCloseAsync, .childWaitForClose maxWait,
   .signalClosed]

/-- `dropOn.WaitForClose` (`drop_on.go` lines 308–315): succeeds only if
`closedChan` is closed (at time `closedAt`) no later than the timeout,
otherwise returns `ErrTimeout`. -/
def dropOnWaitForClose (closedAt : Option Nat) (timeout : Nat) : Option Err :=
  match closedAt with
  | some t => if t ≤ timeout then none else some .timeout
  | none => some .timeout

/-! ## The `Websocket` writer capability -/

/-- The mutable state of the `Websocket` writer: the stored connection handle
`client` (a dialled connection id, or `none`). -/
structure WebsocketState where
  client : Option Nat
  deriving DecidableEq, Repr

/-- Outcome of iterating `client.WriteMessage` over the batch parts:
all parts written, failure with `websocket.ErrCloseSent`, or failure with some
other transport error. -/
inductive WriteOutcome where
  | allOk
  | failCloseSent
  | fail (code : Nat)
  deriving DecidableEq, Repr

/-- `Websocket.WriteWithContext` (`websocket.go` lines 137–156): with no stored
connection, return `ErrNotConnected`; on a write error, clear the stored
connection and return the error (`ErrCloseSent` is mapped to
`ErrNotConnected`); on success, leave the connection in place. -/
def writeWithContext (w : WebsocketState) (outcome : WriteOutcome) :
    Option Err × WebsocketState :=
  match w.client with
  | none => (some .notConnected, w)
  | some _ =>
    match outcome with
    | .allOk => (none, w)
    | .failCloseSent => (some .notConnected, { client := none })
    | .fail code => (some (.child code), { client := none })

/-- Outcome of the websocket dial: a fresh connection id, or an error code. -/
inductive DialOutcome where
  | ok (conn : Nat)
  | fail (code : Nat)
  deriving DecidableEq, Repr

/-- Environment of one `ConnectWithContext` call: whether the URL parses,
whether request signing succeeds, and the dialler's outcome. -/
structure ConnectEnv where
  urlOk : Bool
  signOk : Bool
  dial : DialOutcome
  deriving DecidableEq, Repr

/-- Result of `ConnectWithContext`: the returned error, the state afterwards,
and whether a dial was performed. -/
structure ConnectOut where
  err : Option Err
  state : WebsocketState
  dialed : Bool
  deriving DecidableEq, Repr

/-- `Websocket.ConnectWithContext` (`websocket.go` lines 86–132): with a live
stored connection, return `nil` immediately without dialling; otherwise parse
the URL, sign the request, dial, and store the fresh connection on success. -/
def connectWithContext (w : WebsocketState) (env : ConnectEnv) : ConnectOut :=
  match w.client with
  | some _ => { err := none, state := w, dialed := false }
  | none =>
    if env.urlOk then
      if env.signOk then
        match env.dial with
        | .fail c => { err := some (.dialFailed c), state := w, dialed := true }
        | .ok conn =>
          { err := none, state := { client := some conn }, dialed := true }
      else { err := some .authSign, state := w, dialed := false }
    else { err := some .urlParse, state := w, dialed := false }

/-! ## Specification-side pass-through behaviour (for the refinement claim) -/

/-- Transparent pass-through behaviour, written from the spec's words rather
than from the code: the payload is forwarded unchanged to the child, the loop
blocks without any deadline until the child's result arrives, and the upstream
acknowledgement carries exactly the child's result. -/
def passThroughSpec (gotBP : Bool) (payload : α) (env : IterEnv) : IterOut α :=
  match env.sendAt with
  | none => blockedOut
  | some _ =>
    { status := .next gotBP, sent := [payload],
      attempts := [env.childRes], delivered := [env.childRes],
      dropped := false, drainSpawned := false }

/-! ## Parser fixtures for the construction claims

`time.ParseDuration` and the field-expression parser live outside this
repository; `newDropOn` and `NewCache` are parametrised by them above.  The
fixtures below are concrete instantiations used to evaluate the construction
claims on explicit inputs. -/

/-- A duration parser agreeing with Go's `time.ParseDuration` on the empty
string: the empty string is not a valid duration.  (Non-empty strings are
accepted with an arbitrary value; only the behaviour at `""` matters to the
statements using this fixture.) -/
def durationParseModel (s : String) : Except String Nat :=
  if s = "" then .error "time: invalid duration" else .ok 1

/-- A parser that rejects every input. -/
def parseRejectAll (s : String) : Except String Nat :=
  .error (String.append "invalid: " s)

/-- A field-expression parser that rejects exactly the string `"${!bad}"`. -/
def parseRejectBad (s : String) : Except String Nat :=
  if s = "${!bad}" then .error "parse failure" else .ok 0

/-- A cache-resource probe that finds every target. -/
def probeAll (s : String) : Bool :=
  true

/-! ## Theorems -/

/-- Every iteration of `dropOn.loop` ends in the shared acknowledgement tail
(`ackResult`), in a `return` out of the loop, or blocked forever. -/
theorem dropOnIterShape (conf : DropOnConf) (gotBP : Bool) (p : α)
    (env : IterEnv) :
    (∃ g s r0 dr dn,
      dropOnIter conf gotBP p env = ackResult conf env g s r0 dr dn) ∨
    (∃ s, dropOnIter conf gotBP p env = terminatedWith s) ∨
    dropOnIter conf gotBP p env = blockedOut := by
  unfold dropOnIter
  dsimp only
  repeat' split
  all_goals
    first
      | (left; exact ⟨_, _, _, _, _, rfl⟩)
      | (right; left; exact ⟨_, rfl⟩)
      | (right; right; rfl)

/-- C1 (counterexample): the claim that exactly one acknowledgement is
delivered even when the decorator is shut down mid-flight is false.  With
backpressure disabled, a child that never accepts, and the context cancelled
while the send is pending, the loop takes the `<-d.ctx.Done()` branch and
returns without ever calling `ts.Ack`: zero acknowledgements are delivered for
the transaction in flight. -/
theorem dropOn_shutdown_zero_acks :
    dropOnIter { onError := false, onBackpressure := 5 } false (0 : Nat)
        { sendAt := none, resDelay := 0, childRes := none,
          cancelAt := some 0, ackOk := true } =
      terminatedWith [] ∧
    (dropOnIter { onError := false, onBackpressure := 5 } false (0 : Nat)
        { sendAt := none, resDelay := 0, childRes := none,
          cancelAt := some 0, ackOk := true }).delivered.length = 0 := by
  decide

/-- C1 (amended): for every transaction received by the forwarding loop, at
most one acknowledgement is attempted and at most one is delivered; exactly
one is delivered whenever the decorator is not shut down while the transaction
is in flight and the iteration completes (with backpressure disabled the child
must accept the send for the iteration to complete).  On shutdown mid-flight,
zero acknowledgements may be delivered. -/
theorem dropOn_ack_at_most_once (conf : DropOnConf) (gotBP : Bool) (p : α)
    (env : IterEnv) :
    (dropOnIter conf gotBP p env).attempts.length ≤ 1 ∧
    (dropOnIter conf gotBP p env).delivered.length ≤ 1 ∧
    (env.cancelAt = none → env.ackOk = true →
      (dropOnIter conf gotBP p env).status ≠ .blocked →
      (dropOnIter conf gotBP p env).delivered.length = 1) := by
  refine ⟨?_, ?_, ?_⟩
  · rcases dropOnIterShape conf gotBP p env with ⟨g, s, r0, dr, dn, h⟩ | ⟨s, h⟩ | h <;>
      · simp [h, ackResult, terminatedWith, blockedOut]
        try split <;> simp
  · rcases dropOnIterShape conf gotBP p env with ⟨g, s, r0, dr, dn, h⟩ | ⟨s, h⟩ | h <;>
      · simp [h, ackResult, terminatedWith, blockedOut]
        try split <;> simp
  · intro hC hA
    unfold dropOnIter
    dsimp only
    simp only [hC, tleOpt, Bool.and_true]
    repeat' split
    all_goals simp_all [ackResult, terminatedWith, blockedOut]

/-- C1 (witness): a concrete non-cancelled pass-through iteration delivers
exactly one acknowledgement. -/
theorem dropOn_ack_at_most_once_witness :
    (dropOnIter { onError := false, onBackpressure := 0 } false (0 : Nat)
        { sendAt := some 1, resDelay := 2, childRes := none,
          cancelAt := none, ackOk := true }).delivered.length = 1 :=
  (dropOn_ack_at_most_once { onError := false, onBackpressure := 0 } false 0
    { sendAt := some 1, resDelay := 2, childRes := none,
      cancelAt := none, ackOk := true }).2.2 rfl rfl (by decide)

/-- C2 (counterexample): the claim that after the child accepts the send the
wait for the result has a full fresh budget of `d` is false.  With `d = 10`,
the child accepting the send at time `6` (within the deadline) and its result
arriving `6` later — within a full budget of `10` from acceptance — the single
shared ticker fires at absolute time `10`, before the result at `12`: the
message is dropped as backpressured, the sticky flag is set, and the drain
goroutine is spawned, instead of the result being received. -/
theorem dropOn_full_wait_deadline_refuted :
    dropOnIter { onError := false, onBackpressure := 10 } false (0 : Nat)
        { sendAt := some 6, resDelay := 6, childRes := none,
          cancelAt := none, ackOk := true } =
      { status := .next true, sent := [0],
        attempts := [some (.backPressure 10)],
        delivered := [some (.backPressure 10)],
        dropped := true, drainSpawned := true } := by
  decide

/-- C2 (amended): with `onBackpressure = d > 0` and the decorator not in
sticky backpressure, the send is guarded by the deadline `d`; if the child
accepts the send at time `s ≤ d`, the subsequent wait for the result is
guarded by the remainder `d - s` of the same ticker period — the result is
received only if it arrives by absolute time `d` — and otherwise the sticky
flag is set, the message is treated as dropped, and a background task drains
the child's eventual response.  If the child does not accept within `d`, the
sticky flag is set and the message is dropped without delivery (and without a
drain task, no response being due). -/
theorem dropOn_wait_budget_is_remainder (conf : DropOnConf) (p : α)
    (env : IterEnv) (s : Nat) (hB : 0 < conf.onBackpressure)
    (hC : env.cancelAt = none) (hS : env.sendAt = some s) :
    (s ≤ conf.onBackpressure →
      (s + env.resDelay ≤ conf.onBackpressure →
        dropOnIter conf false p env =
          ackResult conf env false [p] env.childRes false false) ∧
      (conf.onBackpressure < s + env.resDelay →
        dropOnIter conf false p env =
          ackResult conf env true [p] (dropResult conf) true true)) ∧
    (conf.onBackpressure < s →
      dropOnIter conf false p env =
        ackResult conf env true [] (dropResult conf) true false) := by
  unfold dropOnIter
  dsimp only
  rw [hS]
  simp only [hC, tleOpt, Bool.and_true, hB, if_true]
  constructor
  · intro h1
    constructor
    · intro h2
      simp [Nat.ble_eq, h1, h2]
    · intro h2
      simp [Nat.ble_eq, h1]
      omega
  · intro h1
    simp [Nat.ble_eq]
    omega

/-- C2 (witness): with `d = 10`, acceptance at `3` and the result arriving at
absolute time `7 ≤ 10`, the result is received and acknowledged. -/
theorem dropOn_wait_budget_is_remainder_witness :
    dropOnIter { onError := false, onBackpressure := 10 } false (0 : Nat)
        { sendAt := some 3, resDelay := 4, childRes := none,
          cancelAt := none, ackOk := true } =
      ackResult { onError := false, onBackpressure := 10 }
        { sendAt := some 3, resDelay := 4, childRes := none,
          cancelAt := none, ackOk := true } false [0] none false false :=
  ((dropOn_wait_budget_is_remainder { onError := false, onBackpressure := 10 }
      0 { sendAt := some 3, resDelay := 4, childRes := none,
          cancelAt := none, ackOk := true } 3 (by decide) rfl rfl).1
    (by decide)).1 (by decide)

/-- C3: while in sticky backpressure, each incoming transaction triggers
exactly one non-blocking send attempt.  If the child is not ready immediately
(`sendAt ≠ some 0`), nothing is forwarded, no deadline wait happens (no drain
task, result and timing ignored) and the message is dropped with the sticky
flag kept; if the child is ready, the sticky flag is cleared and the loop
waits for the result under the timed regime: received if it arrives within
the ticker period, otherwise dropped again with a drain task spawned. -/
theorem dropOn_sticky_single_nonblocking_attempt (conf : DropOnConf) (p : α)
    (env : IterEnv) (hB : 0 < conf.onBackpressure) :
    (env.sendAt ≠ some 0 →
      dropOnIter conf true p env =
        ackResult conf env true [] (dropResult conf) true false) ∧
    (env.sendAt = some 0 → env.cancelAt = none →
      (env.resDelay ≤ conf.onBackpressure →
        dropOnIter conf true p env =
          ackResult conf env false [p] env.childRes false false) ∧
      (conf.onBackpressure < env.resDelay →
        dropOnIter conf true p env =
          ackResult conf env true [p] (dropResult conf) true true)) := by
  constructor
  · intro hne
    unfold dropOnIter
    dsimp only
    simp [hB, hne]
  · intro hS hC
    unfold dropOnIter
    dsimp only
    simp only [hS, hC, tleOpt, Bool.and_true, hB, if_true]
    constructor
    · intro h
      simp [Nat.ble_eq, h]
    · intro h
      simp [Nat.ble_eq]
      omega

/-- C3 (witness): sticky decorator, child not immediately ready: the
transaction is dropped with nothing forwarded; and with the child immediately
ready, the sticky flag is cleared and the child's result is acknowledged. -/
theorem dropOn_sticky_single_nonblocking_attempt_witness :
    dropOnIter { onError := false, onBackpressure := 8 } true (0 : Nat)
        { sendAt := some 2, resDelay := 0, childRes := none,
          cancelAt := none, ackOk := true } =
      ackResult { onError := false, onBackpressure := 8 }
        { sendAt := some 2, resDelay := 0, childRes := none,
          cancelAt := none, ackOk := true } true []
        (dropResult { onError := false, onBackpressure := 8 }) true false ∧
    dropOnIter { onError := false, onBackpressure := 8 } true (0 : Nat)
        { sendAt := some 0, resDelay := 3, childRes := none,
          cancelAt := none, ackOk := true } =
      ackResult { onError := false, onBackpressure := 8 }
        { sendAt := some 0, resDelay := 3, childRes := none,
          cancelAt := none, ackOk := true } false [0] none false false :=
  ⟨(dropOn_sticky_single_nonblocking_attempt
      { onError := false, onBackpressure := 8 } 0
      { sendAt := some 2, resDelay := 0, childRes := none,
        cancelAt := none, ackOk := true } (by decide)).1 (by decide),
   ((dropOn_sticky_single_nonblocking_attempt
      { onError := false, onBackpressure := 8 } 0
      { sendAt := some 0, resDelay := 3, childRes := none,
        cancelAt := none, ackOk := true } (by decide)).2 rfl rfl).1 (by decide)⟩

/-- C4: whenever a transaction is dropped due to backpressure (first-timeout
or sticky), the acknowledgement value passed upstream is `nil` when `onError`
is set, and otherwise the synthetic non-nil error carrying the configured
backpressure duration that was exceeded. -/
theorem dropOn_backpressure_drop_ack_value (conf : DropOnConf) (gotBP : Bool)
    (p : α) (env : IterEnv) :
    (dropOnIter conf gotBP p env).dropped = true →
    (dropOnIter conf gotBP p env).attempts =
      [if conf.onError then none
       else some (.backPressure conf.onBackpressure)] := by
  unfold dropOnIter
  dsimp only
  repeat' split
  all_goals intro h
  all_goals
    cases hE : conf.onError <;>
      simp_all [ackResult, dropResult, terminatedWith, blockedOut]

/-- C4 (witness): a send timeout with `onError` unset acknowledges the
synthetic backpressure error naming the configured duration. -/
theorem dropOn_backpressure_drop_ack_value_witness :
    (dropOnIter { onError := false, onBackpressure := 7 } false (0 : Nat)
        { sendAt := none, resDelay := 0, childRes := none,
          cancelAt := none, ackOk := true }).attempts =
      [some (.backPressure 7)] := by
  simpa using dropOn_backpressure_drop_ack_value
    { onError := false, onBackpressure := 7 } false 0
    { sendAt := none, resDelay := 0, childRes := none,
      cancelAt := none, ackOk := true } (by decide)

/-- C5: with `onError = true`, every acknowledgement value the loop passes to
`ts.Ack` is `nil`: a child failure (and likewise a backpressure drop) is
converted to success before acknowledging upstream, so the producer never
observes a failure acknowledgement. -/
theorem dropOn_onError_acks_success (conf : DropOnConf) (gotBP : Bool) (p : α)
    (env : IterEnv) (hE : conf.onError = true) :
    ∀ a ∈ (dropOnIter conf gotBP p env).attempts, a = none := by
  unfold dropOnIter
  dsimp only
  repeat' split
  all_goals
    simp [ackResult, dropResult, terminatedWith, blockedOut, hE]

/-- C5 (witness): with `onError = true` and a child reporting a failure, the
failure value does not appear among the acknowledgements. -/
theorem dropOn_onError_acks_success_witness :
    some (Err.child 3) ∉
      (dropOnIter { onError := true, onBackpressure := 5 } false (0 : Nat)
        { sendAt := some 1, resDelay := 1, childRes := some (.child 3),
          cancelAt := none, ackOk := true }).attempts :=
  fun hmem => by
    simpa using dropOn_onError_acks_success
      { onError := true, onBackpressure := 5 } false 0
      { sendAt := some 1, resDelay := 1, childRes := some (.child 3),
        cancelAt := none, ackOk := true } rfl _ hmem

/-- C6: cancelling the decorator's context terminates the forwarding loop,
unblocking any pending send or wait at any cancellation time, in both modes:
the loop ends on a pending timed send (child not yet ready when cancellation
fires, ticker not yet fired), a pending timed result wait (send accepted,
result still outstanding, ticker not yet fired), a pending sticky-mode result
wait, a pending no-deadline send, and a pending no-deadline result wait.
Moreover the deferred shutdown sequence awaits the child
(`childWaitForClose`, position 2) strictly before signalling the decorator's
own closed channel (`signalClosed`, position 3), and `WaitForClose` reports
the decorator closed only if the closed channel was in fact signalled. -/
theorem dropOn_shutdown_sequencing :
    (∀ (conf : DropOnConf) (p : α) (env : IterEnv) (c : Nat),
      0 < conf.onBackpressure → env.cancelAt = some c →
      c < conf.onBackpressure → (∀ s, env.sendAt = some s → c < s) →
      (dropOnIter conf false p env).status = .terminated) ∧
    (∀ (conf : DropOnConf) (p : α) (env : IterEnv) (c s : Nat),
      0 < conf.onBackpressure → env.cancelAt = some c →
      env.sendAt = some s → s ≤ conf.onBackpressure → s ≤ c →
      c < s + env.resDelay → c < conf.onBackpressure →
      (dropOnIter conf false p env).status = .terminated) ∧
    (∀ (conf : DropOnConf) (p : α) (env : IterEnv) (c : Nat),
      0 < conf.onBackpressure → env.cancelAt = some c →
      env.sendAt = some 0 → c < env.resDelay → c < conf.onBackpressure →
      (dropOnIter conf true p env).status = .terminated) ∧
    (∀ (conf : DropOnConf) (gotBP : Bool) (p : α) (env : IterEnv) (c : Nat),
      conf.onBackpressure = 0 → env.cancelAt = some c →
      (∀ s, env.sendAt = some s → c < s) →
      (dropOnIter conf gotBP p env).status = .terminated) ∧
    (∀ (conf : DropOnConf) (gotBP : Bool) (p : α) (env : IterEnv) (c s : Nat),
      conf.onBackpressure = 0 → env.cancelAt = some c →
      env.sendAt = some s → s ≤ c → c < s + env.resDelay →
      (dropOnIter conf gotBP p env).status = .terminated) ∧
    (∀ m : Nat,
      (loopShutdownSeq m).indexOf (ShutdownEvent.childWaitForClose m) = 2 ∧
      (loopShutdownSeq m).indexOf ShutdownEvent.signalClosed = 3) ∧
    (∀ (closedAt : Option Nat) (timeout : Nat),
      dropOnWaitForClose closedAt timeout = none → closedAt ≠ none) := by
  refine ⟨?_, ?_, ?_, ?_, ?_, ?_, ?_⟩
  · intro conf p env c hB hC hcd hpend
    unfold dropOnIter
    dsimp only
    cases hs : env.sendAt with
    | none =>
      have h2 : ¬ conf.onBackpressure ≤ c := by omega
      simp [hB, hC, tleOpt, Nat.ble_eq, h2, terminatedWith]
    | some s =>
      have hcs := hpend s hs
      have h1 : ¬ (s ≤ conf.onBackpressure ∧ s ≤ c) := by omega
      have h2 : ¬ conf.onBackpressure ≤ c := by omega
      simp [hB, hC, tleOpt, Nat.ble_eq, h1, h2, terminatedWith]
  · intro conf p env c s hB hC hS hsd hsc hcr hcd
    unfold dropOnIter
    dsimp only
    rw [hS]
    have h1 : ¬ (s + env.resDelay ≤ conf.onBackpressure ∧
        s + env.resDelay ≤ c) := by omega
    have h2 : ¬ conf.onBackpressure ≤ c := by omega
    simp [hB, hC, tleOpt, Nat.ble_eq, hsd, hsc, h1, h2, terminatedWith]
  · intro conf p env c hB hC hS hcr hcd
    unfold dropOnIter
    dsimp only
    have h1 : ¬ (env.resDelay ≤ conf.onBackpressure ∧
        env.resDelay ≤ c) := by omega
    have h2 : ¬ conf.onBackpressure ≤ c := by omega
    simp [hB, hC, hS, tleOpt, Nat.ble_eq, h1, h2, terminatedWith]
  · intro conf gotBP p env c hB hC hpend
    unfold dropOnIter
    dsimp only
    cases hs : env.sendAt with
    | none => simp [hB, hC, terminatedWith]
    | some s =>
      have hcs := hpend s hs
      have h1 : ¬ s ≤ c := by omega
      simp [hB, hC, tleOpt, Nat.ble_eq, h1, terminatedWith]
  · intro conf gotBP p env c s hB hC hS hsc hcr
    unfold dropOnIter
    dsimp only
    rw [hS]
    have h1 : ¬ s + env.resDelay ≤ c := by omega
    simp [hB, hC, tleOpt, Nat.ble_eq, hsc, h1, terminatedWith]
  · intro m
    constructor <;> simp [loopShutdownSeq, List.indexOf_cons]
  · intro closedAt timeout h
    unfold dropOnWaitForClose at h
    cases closedAt <;> simp_all

/-- C6 (witness): concrete cancelled iterations terminate in all five pending
situations — timed send pending (cancel at 2 of 5), timed wait pending
(accept at 3, cancel at 5, result due at 12, deadline 10), sticky wait
pending (cancel at 4, result due at 7, deadline 10), no-deadline send
pending, no-deadline wait pending (accept at 2, cancel at 3, result due at
7) — with the shutdown ordering facts at `maxWait = 3` and a closed channel
signalled at time `1` within a timeout of `2`. -/
theorem dropOn_shutdown_sequencing_witness :
    (dropOnIter { onError := false, onBackpressure := 5 } false (0 : Nat)
        { sendAt := none, resDelay := 0, childRes := none,
          cancelAt := some 2, ackOk := true }).status = .terminated ∧
    (dropOnIter { onError := false, onBackpressure := 10 } false (0 : Nat)
        { sendAt := some 3, resDelay := 9, childRes := none,
          cancelAt := some 5, ackOk := true }).status = .terminated ∧
    (dropOnIter { onError := false, onBackpressure := 10 } true (0 : Nat)
        { sendAt := some 0, resDelay := 7, childRes := none,
          cancelAt := some 4, ackOk := true }).status = .terminated ∧
    (dropOnIter { onError := false, onBackpressure := 0 } false (0 : Nat)
        { sendAt := none, resDelay := 0, childRes := none,
          cancelAt := some 0, ackOk := true }).status = .terminated ∧
    (dropOnIter { onError := false, onBackpressure := 0 } false (0 : Nat)
        { sendAt := some 2, resDelay := 5, childRes := none,
          cancelAt := some 3, ackOk := true }).status = .terminated ∧
    ((loopShutdownSeq 3).indexOf (ShutdownEvent.childWaitForClose 3) = 2 ∧
     (loopShutdownSeq 3).indexOf ShutdownEvent.signalClosed = 3) ∧
    (dropOnWaitForClose (some 1) 2 = none → (some 1 : Option Nat) ≠ none) :=
  ⟨dropOn_shutdown_sequencing.1 { onError := false, onBackpressure := 5 } 0
      { sendAt := none, resDelay := 0, childRes := none,
        cancelAt := some 2, ackOk := true } 2 (by decide) rfl (by decide)
      (fun s hs => nomatch hs),
   dropOn_shutdown_sequencing.2.1 { onError := false, onBackpressure := 10 } 0
      { sendAt := some 3, resDelay := 9, childRes := none,
        cancelAt := some 5, ackOk := true } 5 3 (by decide) rfl rfl
      (by decide) (by decide) (by decide) (by decide),
   dropOn_shutdown_sequencing.2.2.1 { onError := false, onBackpressure := 10 }
      0 { sendAt := some 0, resDelay := 7, childRes := none,
          cancelAt := some 4, ackOk := true } 4 (by decide) rfl rfl
      (by decide) (by decide),
   dropOn_shutdown_sequencing.2.2.2.1 { onError := false, onBackpressure := 0 }
      false 0 { sendAt := none, resDelay := 0, childRes := none,
                cancelAt := some 0, ackOk := true } 0 rfl rfl
      (fun s hs => nomatch hs),
   dropOn_shutdown_sequencing.2.2.2.2.1
      { onError := false, onBackpressure := 0 } false 0
      { sendAt := some 2, resDelay := 5, childRes := none,
        cancelAt := some 3, ackOk := true } 3 2 rfl rfl rfl (by decide)
      (by decide),
   (@dropOn_shutdown_sequencing Nat).2.2.2.2.2.1 3,
   (@dropOn_shutdown_sequencing Nat).2.2.2.2.2.2 (some 1) 2⟩

/-- C7 (counterexample): the claim that `newDropOn` fails for *every*
`back_pressure` string rejected by the duration parser is false at the empty
string: Go's `time.ParseDuration` rejects `""` (as `durationParseModel`
records), yet `newDropOn` skips the parse entirely when the string is empty
(`len(conf.BackPressure) > 0` guard) and succeeds with backpressure mode
disabled. -/
theorem newDropOn_empty_backpressure_not_error :
    durationParseModel "" = .error "time: invalid duration" ∧
    newDropOn durationParseModel { error := false, backPressure := "" } =
      .ok { onError := false, onBackpressure := 0 } := by
  constructor
  · rfl
  · rfl

/-- C7 (amended): configuration errors are caught at construction for every
back_pressure string that is handed to the duration parser — that is, every
*non-empty* string that fails parsing (the empty string means "disabled" and
is never parsed) — and for every cache key or TTL expression that fails to
parse, `NewCache` returns an error at construction time. -/
theorem construction_errors_at_startup :
    (∀ (parseDur : String → Except String Nat) (conf : DropOnConditions)
        (e : String),
      0 < conf.backPressure.length → parseDur conf.backPressure = .error e →
      newDropOn parseDur conf = .error (.parseDuration conf.backPressure)) ∧
    (∀ (newField : String → Except String Nat) (probeCache : String → Bool)
        (conf : CacheConfig) (e : String),
      newField conf.key = .error e →
      NewCache newField probeCache conf = .error (.parseKey conf.key)) ∧
    (∀ (newField : String → Except String Nat) (probeCache : String → Bool)
        (conf : CacheConfig) (k : Nat) (e : String),
      newField conf.key = .ok k → newField conf.ttl = .error e →
      NewCache newField probeCache conf = .error (.parseTTL conf.ttl)) := by
  refine ⟨?_, ?_, ?_⟩
  · intro parseDur conf e hlen hp
    unfold newDropOn
    simp [hlen, hp]
  · intro newField probeCache conf e hp
    unfold NewCache
    simp [hp]
  · intro newField probeCache conf k e hk hp
    unfold NewCache
    simp [hk, hp]

/-- C7 (witness): a rejected non-empty duration string fails `newDropOn`; a
rejected key expression and a rejected TTL expression each fail `NewCache`. -/
theorem construction_errors_at_startup_witness :
    newDropOn parseRejectAll { error := false, backPressure := "nope" } =
      .error (.parseDuration "nope") ∧
    NewCache parseRejectAll probeAll
      { target := "t", key := "${!bad}", ttl := "" } =
      .error (.parseKey "${!bad}") ∧
    NewCache parseRejectBad probeAll
      { target := "t", key := "k", ttl := "${!bad}" } =
      .error (.parseTTL "${!bad}") :=
  ⟨construction_errors_at_startup.1 parseRejectAll
      { error := false, backPressure := "nope" } "invalid: nope"
      (by decide) rfl,
   construction_errors_at_startup.2.1 parseRejectAll probeAll
      { target := "t", key := "${!bad}", ttl := "" } "invalid: ${!bad}" rfl,
   construction_errors_at_startup.2.2 parseRejectBad probeAll
      { target := "t", key := "k", ttl := "${!bad}" } 0 "parse failure"
      rfl rfl⟩

/-- C8: the websocket writer is safe to reconnect after a write failure —
whenever `WriteWithContext` returns a non-nil error the stored connection
handle is `nil` afterwards; `ConnectWithContext` on a live connection returns
`nil` without dialling or replacing it; and with no stored connection (URL and
signing in order) it performs a fresh dial. -/
theorem websocket_reconnect_after_write_failure :
    (∀ (w : WebsocketState) (outcome : WriteOutcome),
      (writeWithContext w outcome).1.isSome →
      (writeWithContext w outcome).2.client = none) ∧
    (∀ (w : WebsocketState) (env : ConnectEnv) (c : Nat),
      w.client = some c →
      connectWithContext w env = { err := none, state := w, dialed := false }) ∧
    (∀ (w : WebsocketState) (env : ConnectEnv),
      w.client = none → env.urlOk = true → env.signOk = true →
      (connectWithContext w env).dialed = true) := by
  refine ⟨?_, ?_, ?_⟩
  · intro w outcome h
    unfold writeWithContext at h ⊢
    cases hw : w.client <;> cases outcome <;> simp_all
  · intro w env c hw
    unfold connectWithContext
    rw [hw]
  · intro w env hw hu hs
    unfold connectWithContext
    rw [hw]
    cases hd : env.dial <;> simp [hu, hs, hd]

/-- C8 (witness): after a failed write on connection `5` the handle is
cleared; connecting while holding connection `5` is a no-op; connecting with
no handle dials. -/
theorem websocket_reconnect_after_write_failure_witness :
    (writeWithContext { client := some 5 } (.fail 9)).2.client = none ∧
    connectWithContext { client := some 5 }
        { urlOk := true, signOk := true, dial := .ok 7 } =
      { err := none, state := { client := some 5 }, dialed := false } ∧
    (connectWithContext { client := none }
        { urlOk := true, signOk := true, dial := .ok 7 }).dialed = true :=
  ⟨websocket_reconnect_after_write_failure.1 { client := some 5 } (.fail 9)
      (by decide),
   websocket_reconnect_after_write_failure.2.1 { client := some 5 }
      { urlOk := true, signOk := true, dial := .ok 7 } 5 rfl,
   websocket_reconnect_after_write_failure.2.2 { client := none }
      { urlOk := true, signOk := true, dial := .ok 7 } rfl rfl rfl⟩

/-- C9: calling `Consume` a second time after a successful first call returns
`ErrAlreadyStarted` and leaves the state — the bound inbound channel, the
child's binding, and the number of forwarding loops started — exactly
unchanged. -/
theorem dropOnConsume_already_started (d0 : DropOnRun) (c1 c2 : Option Err)
    (t1 t2 : Nat) (h0 : d0.transactionsIn = none)
    (h1 : (dropOnConsume d0 c1 t1).1 = none) :
    dropOnConsume (dropOnConsume d0 c1 t1).2 c2 t2 =
      (some .alreadyStarted, (dropOnConsume d0 c1 t1).2) := by
  unfold dropOnConsume at h1 ⊢
  cases c1 <;> simp_all

/-- C9 (witness): a fresh instance consumed successfully on channel `4`
rejects a second `Consume` on channel `9` with `ErrAlreadyStarted`, state
untouched. -/
theorem dropOnConsume_already_started_witness :
    dropOnConsume
        (dropOnConsume { transactionsIn := none, childBound := false,
                         loopsStarted := 0 } none 4).2 none 9 =
      (some .alreadyStarted,
       (dropOnConsume { transactionsIn := none, childBound := false,
                        loopsStarted := 0 } none 4).2) :=
  dropOnConsume_already_started
    { transactionsIn := none, childBound := false, loopsStarted := 0 }
    none none 4 9 rfl (by decide)

/-- C10: with both drop modes disabled (`onError = false`,
`onBackpressure = 0`) and no shutdown interfering, one iteration of the loop
is exactly the spec's transparent pass-through: the payload is forwarded
unchanged in a rewrapped transaction, the loop blocks with no deadline when
the child never accepts, and the upstream acknowledgement carries exactly the
child's result. -/
theorem dropOn_passthrough_equiv (conf : DropOnConf) (gotBP : Bool) (p : α)
    (env : IterEnv) (hE : conf.onError = false) (hB : conf.onBackpressure = 0)
    (hC : env.cancelAt = none) (hA : env.ackOk = true) :
    dropOnIter conf gotBP p env = passThroughSpec gotBP p env := by
  unfold dropOnIter passThroughSpec
  dsimp only
  rw [hB]
  simp only [Nat.lt_irrefl, if_false]
  cases hs : env.sendAt with
  | none => rw [hC]
  | some s => simp [tleOpt, hC, ackResult, hA, hE]

/-- C10 (witness): a concrete pass-through iteration forwarding payload `7`
with a failing child result equals the spec-side pass-through. -/
theorem dropOn_passthrough_equiv_witness :
    dropOnIter { onError := false, onBackpressure := 0 } true (7 : Nat)
        { sendAt := some 2, resDelay := 3, childRes := some (.child 1),
          cancelAt := none, ackOk := true } =
      passThroughSpec true 7
        { sendAt := some 2, resDelay := 3, childRes := some (.child 1),
          cancelAt := none, ackOk := true } :=
  dropOn_passthrough_equiv { onError := false, onBackpressure := 0 } true 7
    { sendAt := some 2, resDelay := 3, childRes := some (.child 1),
      cancelAt := none, ackOk := true } rfl rfl rfl rfl

end Benthos
